import Mathlib

/-
  A shallow embedding of the juno MIPS emulator core
  (src/runtime/{memory,vm,decoding,execution}.rs and src/mips/instruction.rs),
  followed by theorems checking the specification's claims against it.

  Conventions of the embedding:
  * Machine integers (u8/u16/u32/usize) are modelled as `Nat`; `% 2^w` is applied
    exactly where the Rust code truncates (casts such as `as u8`, and shifts whose
    u32 result wraps).  Rust `usize` subtraction appears only in positions where the
    source assumes it cannot underflow; `Nat` truncated subtraction is used there.
  * `fatal_error` (which aborts the process) is modelled as an `Except.error` carrying
    the `FatalErrorType`; `Rust` panics are modelled as distinguished error values.
    Error and trap message strings are elided: no observable behaviour of the claims
    depends on them.
  * Mutation of `&mut self` is modelled by returning the updated structure.
-/

namespace Juno

inductive FatalErrorType where
  | IllegalMemoryAccess
  | IllegalInstruction
  | IllegalRegisterAccess
  deriving DecidableEq, Repr, Inhabited

/-- A fatal error or a Rust panic.  `fatal e` models `RuntimeError { err_type := e }` /
`fatal_error(e, ..)`; the `panic*` constructors model the `panic!` calls reachable in
the embedded code. -/
inductive RtError where
  | fatal (e : FatalErrorType)
  | panicGrowStatic
  | panicCoerceFormat
  | panicSetImmediate
  | panicUnsupportedTask
  deriving DecidableEq, Repr, Inhabited

/-- A recoverable trap (`Trap { message }` with the message elided). -/
inductive Trap where
  | mk : Trap
  deriving DecidableEq, Repr, Inhabited

inductive SegmentDirection where
  | Up
  | Down
  deriving DecidableEq, Repr, Inhabited

/-- `MemorySegment` from src/runtime/memory.rs. -/
structure MemorySegment where
  name : String
  start_address : Nat
  size : Nat
  is_static : Bool
  direction : SegmentDirection
  data : List Nat
  read_only : Bool
  deriving DecidableEq, Repr, Inhabited

namespace MemorySegment

/-- `MemorySegment::new`. -/
def new (name : String) (start_address size : Nat) (is_static : Bool)
    (direction : SegmentDirection) (read_only : Bool) : MemorySegment where
  name := name
  start_address := start_address
  size := size
  is_static := is_static
  direction := direction
  data :=
    match is_static with
    | true => List.replicate size 0
    | false => []
  read_only := read_only

/-- `MemorySegment::get_high_address`. -/
def get_high_address (s : MemorySegment) : Nat :=
  match s.direction with
  | .Up => s.start_address + s.size - 1
  | .Down => s.start_address

/-- `MemorySegment::get_low_address`. -/
def get_low_address (s : MemorySegment) : Nat :=
  match s.direction with
  | .Up => s.start_address
  | .Down => s.start_address - s.size + 1

/-- `MemorySegment::get_offset`; the out-of-bounds `fatal_error` is the error case. -/
def get_offset (s : MemorySegment) (address : Nat) : Except RtError Nat :=
  if address < s.get_low_address ∨ s.get_high_address < address then
    .error (.fatal .IllegalMemoryAccess)
  else
    .ok (address - s.get_low_address)

/-- `MemorySegment::get_byte`. -/
def get_byte (s : MemorySegment) (address : Nat) : Except RtError Nat :=
  match s.get_offset address with
  | .error e => .error e
  | .ok offset =>
    if s.data.length ≤ offset then
      .ok 0
    else
      .ok (s.data.getD offset 0)

/-- `MemorySegment::get_halfword`.  Note: no alignment check is performed on loads. -/
def get_halfword (s : MemorySegment) (address : Nat) : Except RtError Nat :=
  match s.get_byte address with
  | .error e => .error e
  | .ok hi =>
    match s.get_byte (address + 1) with
    | .error e => .error e
    | .ok lo => .ok ((hi <<< 8) ||| lo)

/-- `MemorySegment::get_word`.  Note: no alignment check is performed on loads. -/
def get_word (s : MemorySegment) (address : Nat) : Except RtError Nat :=
  match s.get_byte address with
  | .error e => .error e
  | .ok b1 =>
    match s.get_byte (address + 1) with
    | .error e => .error e
    | .ok b2 =>
      match s.get_byte (address + 2) with
      | .error e => .error e
      | .ok b3 =>
        match s.get_byte (address + 3) with
        | .error e => .error e
        | .ok b4 => .ok ((b1 <<< 24) ||| (b2 <<< 16) ||| (b3 <<< 8) ||| b4)

/-- `MemorySegment::set_byte`.  `value` is a `u8` in the source (callers convert with
`as u8`, modelled by `% 256` at the call sites).  The `panic!` on growing a static
segment is `RtError.panicGrowStatic`. -/
def set_byte (s : MemorySegment) (address value : Nat) : Except RtError MemorySegment :=
  match s.get_offset address with
  | .error e => .error e
  | .ok offset =>
    if s.read_only then
      .error (.fatal .IllegalMemoryAccess)
    else if s.data.length ≤ offset then
      if s.is_static then
        .error .panicGrowStatic
      else
        .ok { s with data := (s.data ++ List.replicate (offset + 1 - s.data.length) 0).set offset value }
    else
      .ok { s with data := s.data.set offset value }

/-- `MemorySegment::set_halfword`: alignment is checked before writing. -/
def set_halfword (s : MemorySegment) (address value : Nat) : Except RtError MemorySegment :=
  if address % 2 ≠ 0 then
    .error (.fatal .IllegalMemoryAccess)
  else
    match s.set_byte address ((value >>> 8) % 256) with
    | .error e => .error e
    | .ok s1 => s1.set_byte (address + 1) (value % 256)

/-- `MemorySegment::set_word`: alignment is checked before writing. -/
def set_word (s : MemorySegment) (address value : Nat) : Except RtError MemorySegment :=
  if address % 4 ≠ 0 then
    .error (.fatal .IllegalMemoryAccess)
  else
    match s.set_byte address ((value >>> 24) % 256) with
    | .error e => .error e
    | .ok s1 =>
      match s1.set_byte (address + 1) ((value >>> 16) % 256) with
      | .error e => .error e
      | .ok s2 =>
        match s2.set_byte (address + 2) ((value >>> 8) % 256) with
        | .error e => .error e
        | .ok s3 => s3.set_byte (address + 3) (value % 256)

end MemorySegment

/-- `MemoryMap` from src/runtime/memory.rs. -/
structure MemoryMap where
  segments : List MemorySegment
  deriving DecidableEq, Repr, Inhabited

namespace MemoryMap

/-- The overlap test of `MemoryMap::add_segment`, for one ordered pair of segments:
`segment.get_low_address() < other.get_high_address() && segment.get_high_address() >
other.get_low_address()`. -/
def segOverlaps (a b : MemorySegment) : Bool :=
  decide (a.get_low_address < b.get_high_address) &&
    decide (b.get_low_address < a.get_high_address)

/-- The double loop of `MemoryMap::add_segment`: some pair of segments at distinct
positions (the source compares object addresses) satisfies the overlap test. -/
def anyOverlap (segs : List MemorySegment) : Bool :=
  (List.range segs.length).any fun i =>
    (List.range segs.length).any fun j =>
      decide (i ≠ j) && segOverlaps (segs.getD i default) (segs.getD j default)

/-- `MemoryMap::add_segment`: push the segment, then panic (modelled as `none`) if the
overlap test fires for any pair. -/
def add_segment (m : MemoryMap) (segment : MemorySegment) : Option MemoryMap :=
  let segs := m.segments ++ [segment]
  if anyOverlap segs then none else some ⟨segs⟩

/-- `MemoryMap::get_segment`: the first segment whose closed range contains `address`. -/
def get_segment (m : MemoryMap) (address : Nat) : Option MemorySegment :=
  m.segments.find? fun s =>
    decide (s.get_low_address ≤ address) && decide (address ≤ s.get_high_address)

/-- `MemoryMap::get_word` (`invalid_read` on no segment). -/
def get_word (m : MemoryMap) (address : Nat) : Except RtError Nat :=
  match m.get_segment address with
  | some seg => seg.get_word address
  | none => .error (.fatal .IllegalMemoryAccess)

/-- Helper for `MemoryMap::set_word`: `get_segment_mut` finds the first segment whose
closed range contains the address, and the store mutates it in place. -/
def setWordInSegments (segs : List MemorySegment) (address value : Nat) :
    Except RtError (List MemorySegment) :=
  match segs with
  | [] => .error (.fatal .IllegalMemoryAccess)
  | s :: rest =>
    if s.get_low_address ≤ address ∧ address ≤ s.get_high_address then
      match s.set_word address value with
      | .error e => .error e
      | .ok s2 => .ok (s2 :: rest)
    else
      match setWordInSegments rest address value with
      | .error e => .error e
      | .ok r => .ok (s :: r)

/-- `MemoryMap::set_word` (`invalid_write` on no segment). -/
def set_word (m : MemoryMap) (address value : Nat) : Except RtError MemoryMap :=
  match setWordInSegments m.segments address value with
  | .error e => .error e
  | .ok segs => .ok ⟨segs⟩

end MemoryMap

/-- The instruction formats of src/mips/instruction.rs. -/
inductive InstructionFormat where
  | R
  | I
  | J
  deriving DecidableEq, Repr, Inhabited

/-- `Instruction` from src/mips/instruction.rs: opcode-or-funct value, mnemonic, format. -/
structure Instruction where
  opc_func : Nat
  name : String
  format : InstructionFormat
  deriving DecidableEq, Repr, Inhabited

structure RFormat where
  rs : Nat
  rt : Nat
  rd : Nat
  shamt : Nat
  funct : Nat
  deriving DecidableEq, Repr, Inhabited

structure IFormat where
  rs : Nat
  rt : Nat
  imm : Nat
  deriving DecidableEq, Repr, Inhabited

structure JFormat where
  address : Nat
  deriving DecidableEq, Repr, Inhabited

inductive InstructionArgs where
  | RFormat (args : RFormat)
  | IFormat (args : IFormat)
  | JFormat (args : JFormat)
  deriving DecidableEq, Repr, Inhabited

structure InstructionData where
  base : Instruction
  args : InstructionArgs
  deriving DecidableEq, Repr, Inhabited

/-- `coerece_r_format` (sic): panics when the instruction is not R-format. -/
def coerece_r_format (d : InstructionData) : Except RtError RFormat :=
  match d.args with
  | .RFormat args => .ok args
  | _ => .error .panicCoerceFormat

/-- `coerce_i_format`: panics when the instruction is not I-format. -/
def coerce_i_format (d : InstructionData) : Except RtError IFormat :=
  match d.args with
  | .IFormat args => .ok args
  | _ => .error .panicCoerceFormat

/-- `InstructionData::is_null`: an R-format word whose `opc_func` is 0 (sll) with all
zero arguments, used as the halt sentinel. -/
def InstructionData.is_null (d : InstructionData) : Bool :=
  match d.args with
  | .RFormat r =>
    match d.base.opc_func with
    | 0 => r.rs == 0 && r.rt == 0 && r.rd == 0 && r.shamt == 0
    | _ => false
  | _ => false

/- The `instructions` module of src/mips/instruction.rs. -/
namespace instructions

def ADD : Instruction := ⟨0b100000, "add", .R⟩

def ADDU : Instruction := ⟨0b100001, "addu", .R⟩

def ADDI : Instruction := ⟨0b001000, "addi", .I⟩

def ADDIU : Instruction := ⟨0b001001, "addiu", .I⟩

def AND : Instruction := ⟨0b100100, "and", .R⟩

def ANDI : Instruction := ⟨0b001100, "andi", .I⟩

def DIV : Instruction := ⟨0b011010, "div", .R⟩

def DIVU : Instruction := ⟨0b011011, "divu", .R⟩

def MULT : Instruction := ⟨0b011000, "mult", .R⟩

def MULTU : Instruction := ⟨0b011001, "multu", .R⟩

def NOR : Instruction := ⟨0b100111, "nor", .R⟩

def OR : Instruction := ⟨0b100101, "or", .R⟩

def ORI : Instruction := ⟨0b001101, "ori", .I⟩

def SLL : Instruction := ⟨0b000000, "sll", .R⟩

def SLLV : Instruction := ⟨0b000100, "sllv", .R⟩

def SRA : Instruction := ⟨0b000011, "sra", .R⟩

def SRAV : Instruction := ⟨0b000111, "srav", .R⟩

def SRL : Instruction := ⟨0b000010, "srl", .R⟩

def SRLV : Instruction := ⟨0b000110, "srlv", .R⟩

def SUB : Instruction := ⟨0b100010, "sub", .R⟩

def SUBU : Instruction := ⟨0b100011, "subu", .R⟩

def XOR : Instruction := ⟨0b100110, "xor", .R⟩

def XORI : Instruction := ⟨0b001110, "xori", .I⟩

def SLT : Instruction := ⟨0b101010, "slt", .R⟩

def SLTU : Instruction := ⟨0b101001, "sltu", .R⟩

def SLTI : Instruction := ⟨0b001010, "slti", .I⟩

def SLTIU : Instruction := ⟨0b001001, "sltiu", .I⟩

def BEQ : Instruction := ⟨0b000100, "beq", .I⟩

def BGTZ : Instruction := ⟨0b000111, "bgz", .I⟩

def BLEZ : Instruction := ⟨0b000110, "blez", .I⟩

def BNE : Instruction := ⟨0b000101, "bne", .I⟩

def J : Instruction := ⟨0b000010, "j", .J⟩

def JAL : Instruction := ⟨0b000011, "jal", .J⟩

def JALR : Instruction := ⟨0b001001, "jalr", .R⟩

def JR : Instruction := ⟨0b001000, "jr", .R⟩

def LB : Instruction := ⟨0b100000, "lb", .I⟩

def LBU : Instruction := ⟨0b100100, "lbu", .I⟩

def LH : Instruction := ⟨0b100001, "lh", .I⟩

def LHU : Instruction := ⟨0b100101, "lhu", .I⟩

def LW : Instruction := ⟨0b100011, "lw", .I⟩

def SB : Instruction := ⟨0b101000, "sb", .I⟩

def SH : Instruction := ⟨0b101001, "sh", .I⟩

def SW : Instruction := ⟨0b101011, "sw", .I⟩

def MFHI : Instruction := ⟨0b010000, "mfhi", .R⟩

def MFLO : Instruction := ⟨0b010010, "mflo", .R⟩

def MTHI : Instruction := ⟨0b010001, "mthi", .R⟩

def MTLO : Instruction := ⟨0b010011, "mtlo", .R⟩

def SYSCALL : Instruction := ⟨0b001100, "syscall", .R⟩

def ALL_INSTRUCTIONS : List Instruction :=
  [ADD, ADDU, ADDI, ADDIU, AND, ANDI, DIV, DIVU, MULT, MULTU, NOR, OR, ORI, SLL, SLLV, SRA,
   SRAV, SRL, SRLV, SUB, SUBU, XOR, XORI, SLT, SLTU, SLTI, SLTIU, BEQ, BGTZ, BLEZ, BNE, J,
   JAL, JALR, JR, LB, LBU, LH, LHU, LW, SB, SH, SW, MFHI, MFLO, MTHI, MTLO, SYSCALL]

end instructions

/-- `VM` from src/runtime/vm.rs.  The register array `[u32; 32]` is a length-32 list. -/
structure VM where
  registers : List Nat
  memory : MemoryMap
  pc : Nat
  hi : Nat
  lo : Nat
  deriving DecidableEq, Repr, Inhabited

namespace VM

/-- `VM::set_register`: rejects the zero register and indices above 31; otherwise
writes the value. -/
def set_register (vm : VM) (register value : Nat) : Except RtError VM :=
  if register == 0 then
    .error (.fatal .IllegalRegisterAccess)
  else if 31 < register then
    .error (.fatal .IllegalRegisterAccess)
  else
    .ok { vm with registers := vm.registers.set register value }

/-- `VM::get_register`: rejects indices above 31; otherwise reads the value. -/
def get_register (vm : VM) (register : Nat) : Except RtError Nat :=
  if 31 < register then
    .error (.fatal .IllegalRegisterAccess)
  else
    .ok (vm.registers.getD register 0)

/-- `VM::decode_base_instruction` from src/runtime/decoding.rs.  Both branches scan the
same flat `ALL_INSTRUCTIONS` table and return the first entry whose `opc_func` matches,
without filtering by format. -/
def decode_base_instruction (instruction : Nat) : Except RtError Instruction :=
  let b1 := (instruction >>> 24) % 256
  let opcode := b1 >>> 2
  if opcode == 0 then
    let func_code := ((instruction <<< 26) % 2 ^ 32) >>> 26
    match instructions.ALL_INSTRUCTIONS.find? (fun inst => inst.opc_func == func_code) with
    | some inst => .ok inst
    | none => .error (.fatal .IllegalInstruction)
  else
    match instructions.ALL_INSTRUCTIONS.find? (fun inst => inst.opc_func == opcode) with
    | some inst => .ok inst
    | none => .error (.fatal .IllegalInstruction)

/-- `VM::decode_instruction` from src/runtime/decoding.rs: look up the base instruction,
then extract the operand fields according to the base instruction's format.  The Rust
`(instruction << k) >> j` expressions operate on `u32`, hence the `% 2^32`. -/
def decode_instruction (instruction : Nat) : Except RtError InstructionData :=
  match decode_base_instruction instruction with
  | .error e => .error e
  | .ok base =>
    .ok
      { base := base
        args :=
          match base.format with
          | .R =>
            .RFormat
              { rs := ((instruction <<< 6) % 2 ^ 32) >>> 27
                rt := ((instruction <<< 11) % 2 ^ 32) >>> 27
                rd := ((instruction <<< 16) % 2 ^ 32) >>> 27
                shamt := ((instruction <<< 21) % 2 ^ 32) >>> 27
                funct := ((instruction <<< 26) % 2 ^ 32) >>> 26 }
          | .I =>
            .IFormat
              { rs := ((instruction <<< 6) % 2 ^ 32) >>> 27
                rt := ((instruction <<< 11) % 2 ^ 32) >>> 27
                imm := ((instruction <<< 16) % 2 ^ 32) >>> 16 }
          | .J => .JFormat { address := ((instruction <<< 6) % 2 ^ 32) >>> 6 } }

end VM

/- src/runtime/execution.rs -/

inductive ShiftDirection where
  | Left
  | Right
  deriving DecidableEq, Repr, Inhabited

inductive ShiftType where
  | Logical
  | Arithmetic
  deriving DecidableEq, Repr, Inhabited

inductive HalfWordExtension where
  | Sign
  | Zero
  deriving DecidableEq, Repr, Inhabited

inductive Target where
  | Register (reg : Nat)
  | Memory (address : Nat)
  | Immediate (value : Nat) (ext : HalfWordExtension)
  deriving DecidableEq, Repr, Inhabited

inductive ExecutionTask where
  | Add (dest a b : Target) (overflow_trap : Bool)
  | Sub (dest a b : Target) (overflow_trap : Bool)
  | And (dest a b : Target)
  | Or (dest a b : Target)
  | Xor (dest a b : Target)
  | Nor (dest a b : Target)
  | Div (a b : Target) (overflow : Bool)
  | Mult (a b : Target) (signed : Bool)
  | Shift (dest a b : Target) (direction : ShiftDirection) (shift_type : ShiftType)
  | Load (dest src_addr offset : Target) (signed : Bool) (size : Nat)
  | Store (dest_addr src offset : Target) (size : Nat)
  | Jump (dest : Target)
  | Syscall
  | Nop
  deriving DecidableEq, Repr, Inhabited

/-- `(*value as i16) as u32` for a `u16` value. -/
def sign_extend16 (value : Nat) : Nat :=
  if value < 0x8000 then value else value + 0xFFFF0000

/-- `x as i32 as u64` for a `u32` value. -/
def sign_extend32_64 (value : Nat) : Nat :=
  if value < 0x80000000 then value else value + 0xFFFFFFFF00000000

/-- `((a as i32) >> s) as u32` for `u32` values: arithmetic right shift.  The shift
amount is reduced `% 32` (in a debug build Rust would instead abort on `s ≥ 32`; no
claim exercises that corner). -/
def sra32 (a s : Nat) : Nat :=
  (((if a < 2 ^ 31 then (a : Int) else (a : Int) - 2 ^ 32).fdiv (2 ^ (s % 32))) % 2 ^ 32).toNat

/-- `VM::get_value_of_target`. -/
def get_value_of_target (vm : VM) (t : Target) : Except RtError Nat :=
  match t with
  | .Register reg => vm.get_register reg
  | .Memory address => vm.memory.get_word address
  | .Immediate value hw_ext =>
    match hw_ext with
    | .Sign => .ok (sign_extend16 value)
    | .Zero => .ok value

/-- `VM::set_value_of_target`: panics if the target is an immediate value. -/
def set_value_of_target (vm : VM) (t : Target) (value : Nat) : Except RtError VM :=
  match t with
  | .Register reg => vm.set_register reg value
  | .Memory address =>
    match vm.memory.set_word address value with
    | .error e => .error e
    | .ok m => .ok { vm with memory := m }
  | .Immediate _ _ => .error .panicSetImmediate

/-- `VM::get_add_task` (the `&self` receiver is unused in the source). -/
def get_add_task (d : InstructionData) : Except RtError (Option ExecutionTask) :=
  match d.base.name with
  | "add" =>
    match coerece_r_format d with
    | .error e => .error e
    | .ok args =>
      .ok (some (.Add (.Register args.rd) (.Register args.rs) (.Register args.rt) true))
  | "addu" =>
    match coerece_r_format d with
    | .error e => .error e
    | .ok args =>
      .ok (some (.Add (.Register args.rd) (.Register args.rs) (.Register args.rt) false))
  | "addi" =>
    match coerce_i_format d with
    | .error e => .error e
    | .ok args =>
      .ok (some (.Add (.Register args.rt) (.Register args.rs) (.Immediate args.imm .Sign) true))
  | "addiu" =>
    match coerce_i_format d with
    | .error e => .error e
    | .ok args =>
      .ok (some (.Add (.Register args.rt) (.Register args.rs) (.Immediate args.imm .Sign) false))
  | _ => .ok none

/-- `VM::get_sub_task`. -/
def get_sub_task (d : InstructionData) : Except RtError (Option ExecutionTask) :=
  match d.base.name with
  | "sub" =>
    match coerece_r_format d with
    | .error e => .error e
    | .ok args =>
      .ok (some (.Sub (.Register args.rd) (.Register args.rs) (.Register args.rt) true))
  | "subu" =>
    match coerece_r_format d with
    | .error e => .error e
    | .ok args =>
      .ok (some (.Sub (.Register args.rd) (.Register args.rs) (.Register args.rt) false))
  | _ => .ok none

/-- `VM::get_mult_task`. -/
def get_mult_task (d : InstructionData) : Except RtError (Option ExecutionTask) :=
  match d.base.name with
  | "mult" =>
    match coerece_r_format d with
    | .error e => .error e
    | .ok args => .ok (some (.Mult (.Register args.rs) (.Register args.rt) true))
  | "multu" =>
    match coerece_r_format d with
    | .error e => .error e
    | .ok args => .ok (some (.Mult (.Register args.rs) (.Register args.rt) false))
  | _ => .ok none

/-- `VM::get_boolean_task`. -/
def get_boolean_task (d : InstructionData) : Except RtError (Option ExecutionTask) :=
  match d.base.name with
  | "and" =>
    match coerece_r_format d with
    | .error e => .error e
    | .ok args => .ok (some (.And (.Register args.rd) (.Register args.rs) (.Register args.rt)))
  | "andi" =>
    match coerce_i_format d with
    | .error e => .error e
    | .ok args =>
      .ok (some (.And (.Register args.rt) (.Register args.rs) (.Immediate args.imm .Zero)))
  | "or" =>
    match coerece_r_format d with
    | .error e => .error e
    | .ok args => .ok (some (.Or (.Register args.rd) (.Register args.rs) (.Register args.rt)))
  | "ori" =>
    match coerce_i_format d with
    | .error e => .error e
    | .ok args =>
      .ok (some (.Or (.Register args.rt) (.Register args.rs) (.Immediate args.imm .Zero)))
  | "nor" =>
    match coerece_r_format d with
    | .error e => .error e
    | .ok args => .ok (some (.Nor (.Register args.rd) (.Register args.rs) (.Register args.rt)))
  | "xor" =>
    match coerece_r_format d with
    | .error e => .error e
    | .ok args => .ok (some (.Xor (.Register args.rd) (.Register args.rs) (.Register args.rt)))
  | "xori" =>
    match coerce_i_format d with
    | .error e => .error e
    | .ok args =>
      .ok (some (.Xor (.Register args.rt) (.Register args.rs) (.Immediate args.imm .Zero)))
  | _ => .ok none

/-- `VM::get_shift_task`. -/
def get_shift_task (d : InstructionData) : Except RtError (Option ExecutionTask) :=
  match d.base.name with
  | "sll" =>
    match coerece_r_format d with
    | .error e => .error e
    | .ok args =>
      .ok (some (.Shift (.Register args.rd) (.Register args.rt) (.Immediate args.shamt .Zero)
        .Left .Logical))
  | "sllv" =>
    match coerece_r_format d with
    | .error e => .error e
    | .ok args =>
      .ok (some (.Shift (.Register args.rd) (.Register args.rt) (.Register args.rs)
        .Left .Logical))
  | "sra" =>
    match coerece_r_format d with
    | .error e => .error e
    | .ok args =>
      .ok (some (.Shift (.Register args.rd) (.Register args.rt) (.Immediate args.shamt .Zero)
        .Right .Arithmetic))
  | "srav" =>
    match coerece_r_format d with
    | .error e => .error e
    | .ok args =>
      .ok (some (.Shift (.Register args.rd) (.Register args.rt) (.Register args.rs)
        .Right .Arithmetic))
  | "srl" =>
    match coerece_r_format d with
    | .error e => .error e
    | .ok args =>
      .ok (some (.Shift (.Register args.rd) (.Register args.rt) (.Immediate args.shamt .Zero)
        .Right .Logical))
  | "srlv" =>
    match coerece_r_format d with
    | .error e => .error e
    | .ok args =>
      .ok (some (.Shift (.Register args.rd) (.Register args.rt) (.Register args.rs)
        .Right .Logical))
  | _ => .ok none

/-- `VM::get_task`: try each family of lowerings in order; an instruction no family
recognises is an `IllegalInstruction` runtime error.  Note: no family recognises
`div` or `divu` (or loads, stores, branches, jumps, ...). -/
def get_task (d : InstructionData) : Except RtError ExecutionTask :=
  match get_add_task d with
  | .error e => .error e
  | .ok (some task) => .ok task
  | .ok none =>
    match get_sub_task d with
    | .error e => .error e
    | .ok (some task) => .ok task
    | .ok none =>
      match get_mult_task d with
      | .error e => .error e
      | .ok (some task) => .ok task
      | .ok none =>
        match get_boolean_task d with
        | .error e => .error e
        | .ok (some task) => .ok task
        | .ok none =>
          match get_shift_task d with
          | .error e => .error e
          | .ok (some task) => .ok task
          | .ok none => .error (.fatal .IllegalInstruction)

/-- `VM::execute_task`.  `overflowing_add`/`overflowing_sub` on `u32` report the
*unsigned* carry/borrow; the wrapped result and that flag are modelled directly.
Tasks with no arm in the source `match` (`Div`, `Load`, `Store`, `Jump`, `Syscall`,
`Nop`, and also `Nor`) hit the `panic!` catch-all. -/
def execute_task (vm : VM) (task : ExecutionTask) : Except RtError (VM × Option Trap) :=
  match task with
  | .Add dest a b overflow =>
    match get_value_of_target vm a with
    | .error e => .error e
    | .ok a =>
      match get_value_of_target vm b with
      | .error e => .error e
      | .ok b =>
        let result := (a + b) % 2 ^ 32
        let overflowed := decide (2 ^ 32 ≤ a + b)
        if overflow && overflowed then
          .ok (vm, some .mk)
        else
          match set_value_of_target vm dest result with
          | .error e => .error e
          | .ok vm => .ok (vm, none)
  | .Sub dest a b overflow =>
    match get_value_of_target vm a with
    | .error e => .error e
    | .ok a =>
      match get_value_of_target vm b with
      | .error e => .error e
      | .ok b =>
        let result := (a + 2 ^ 32 - b) % 2 ^ 32
        let overflowed := decide (a < b)
        if overflow && overflowed then
          .ok (vm, some .mk)
        else
          match set_value_of_target vm dest result with
          | .error e => .error e
          | .ok vm => .ok (vm, none)
  | .Mult a b signed =>
    match get_value_of_target vm a with
    | .error e => .error e
    | .ok a =>
      match get_value_of_target vm b with
      | .error e => .error e
      | .ok b =>
        let result :=
          if signed then
            (sign_extend32_64 a * sign_extend32_64 b) % 2 ^ 64
          else
            (a * b) % 2 ^ 64
        .ok ({ vm with hi := result >>> 32, lo := result % 2 ^ 32 }, none)
  | .And dest a b =>
    match get_value_of_target vm a with
    | .error e => .error e
    | .ok a =>
      match get_value_of_target vm b with
      | .error e => .error e
      | .ok b =>
        match set_value_of_target vm dest (a &&& b) with
        | .error e => .error e
        | .ok vm => .ok (vm, none)
  | .Or dest a b =>
    match get_value_of_target vm a with
    | .error e => .error e
    | .ok a =>
      match get_value_of_target vm b with
      | .error e => .error e
      | .ok b =>
        match set_value_of_target vm dest (a ||| b) with
        | .error e => .error e
        | .ok vm => .ok (vm, none)
  | .Xor dest a b =>
    match get_value_of_target vm a with
    | .error e => .error e
    | .ok a =>
      match get_value_of_target vm b with
      | .error e => .error e
      | .ok b =>
        match set_value_of_target vm dest (a ^^^ b) with
        | .error e => .error e
        | .ok vm => .ok (vm, none)
  | .Shift dest a b direction shift_type =>
    match get_value_of_target vm a with
    | .error e => .error e
    | .ok a =>
      match get_value_of_target vm b with
      | .error e => .error e
      | .ok b =>
        let result :=
          match direction, shift_type with
          | .Left, .Logical => (a <<< (b % 32)) % 2 ^ 32
          | .Left, .Arithmetic => (a <<< (b % 32)) % 2 ^ 32
          | .Right, .Logical => a >>> (b % 32)
          | .Right, .Arithmetic => sra32 a b
        match set_value_of_target vm dest result with
        | .error e => .error e
        | .ok vm => .ok (vm, none)
  | _ => .error .panicUnsupportedTask

/-- `VM::execute_instruction`: decode, lower, and, unless the instruction is the null
sentinel, execute.  The source captures the trap with `if let Ok(t) =
self.execute_task(task)`: an `Err` from `execute_task` is silently discarded and the
step still returns `Ok`.  (On such an error the VM is unchanged: every arm of
`execute_task` mutates only as its final, successful action.) -/
def execute_instruction (vm : VM) (instruction : Nat) :
    Except RtError (VM × InstructionData × Option Trap) :=
  match VM.decode_instruction instruction with
  | .error e => .error e
  | .ok inst =>
    match get_task inst with
    | .error e => .error e
    | .ok task =>
      let p :=
        if !inst.is_null then
          match execute_task vm task with
          | .ok (vm2, t) => (vm2, t)
          | .error _ => (vm, none)
        else (vm, none)
      .ok (p.1, inst, p.2)

/-- `VM::fetch_instruction_code`: read the word at the PC and advance the PC by 4. -/
def fetch_instruction_code (vm : VM) : Except RtError (VM × Nat) :=
  match vm.memory.get_word vm.pc with
  | .error e => .error e
  | .ok instruction => .ok ({ vm with pc := vm.pc + 4 }, instruction)

/-- `VM::run_single_instruction` ("step"): fetch then execute. -/
def run_single_instruction (vm : VM) : Except RtError (VM × InstructionData × Option Trap) :=
  match fetch_instruction_code vm with
  | .error e => .error e
  | .ok (vm, instruction) => execute_instruction vm instruction

/- Auxiliary definitions used by the theorems below. -/

/-- The net effect of `MemorySegment::set_byte`'s write path on the backing vector:
resize to `o + 1` when needed (the resize is a no-op when `o` is already in range),
then store at offset `o`. -/
def writeAt (d : List Nat) (o b : Nat) : List Nat :=
  (d ++ List.replicate (o + 1 - d.length) 0).set o b

/-- Run a sequence of `set_register` calls, keeping the previous state whenever a call
reports an error (as the Rust method leaves `self` unchanged on `Err`). -/
def applySets (vm : VM) (sets : List (Nat × Nat)) : VM :=
  sets.foldl (fun vm p =>
    match vm.set_register p.1 p.2 with
    | .ok vm2 => vm2
    | .error _ => vm) vm

/-- Modelled from the spec: the repository contains no encoder, so the canonical
encoding of section 6.2 is used — R `[opcode:6=0][rs:5][rt:5][rd:5][shamt:5][funct:6]`,
I `[opcode:6][rs:5][rt:5][imm:16]`, J `[opcode:6][address:26]`, with each field
truncated to its width and `opc_func` supplying the funct (R) or opcode (I/J). -/
def encode_instruction (d : InstructionData) : Nat :=
  match d.args with
  | .RFormat a =>
    ((a.rs % 32) <<< 21) ||| ((a.rt % 32) <<< 16) ||| ((a.rd % 32) <<< 11) |||
      ((a.shamt % 32) <<< 6) ||| (d.base.opc_func % 64)
  | .IFormat a =>
    ((d.base.opc_func % 64) <<< 26) ||| ((a.rs % 32) <<< 21) ||| ((a.rt % 32) <<< 16) |||
      (a.imm % 65536)
  | .JFormat a => ((d.base.opc_func % 64) <<< 26) ||| (a.address % 0x4000000)

/-- A VM with `$9 = 0x7FFFFFFF` and `$10 = 1` (registers otherwise zero). -/
def addTestVM : VM := ⟨((List.replicate 32 0).set 9 0x7FFFFFFF).set 10 1, ⟨[]⟩, 0, 0, 0⟩

/-- A VM with `$9 = 7` and `$10 = 2` (a nonzero divisor in `$10`). -/
def divTestVM : VM := ⟨((List.replicate 32 0).set 9 7).set 10 2, ⟨[]⟩, 0, 0, 0⟩

/-- A freshly constructed register state: all registers zero. -/
def vmZero : VM := ⟨List.replicate 32 0, ⟨[]⟩, 0, 0, 0⟩

/-- A stack-like segment growing down from 100 with size 40: addresses 61 to 100. -/
def stackSeg : MemorySegment := MemorySegment.new "stack" 100 40 false .Down false

/-- A heap-like writable non-static segment covering addresses 0 to 7. -/
def heapSeg : MemorySegment := MemorySegment.new "heap" 0 8 false .Up false

/-- A segment covering the closed address range [0, 9]. -/
def segA : MemorySegment := MemorySegment.new "a" 0 10 false .Up false

/-- A segment covering the closed address range [9, 18]: it shares address 9 with
`segA`. -/
def segB : MemorySegment := MemorySegment.new "b" 9 10 false .Up false

/-- A non-static segment over [60, 67] whose first five bytes hold concrete data, so
that unaligned loads return visibly composed values. -/
def loadedSeg : MemorySegment :=
  ⟨"loaded", 60, 8, false, .Up, [0xAB, 0xCD, 0xEF, 0x12, 0x34], false⟩

/- Helper lemmas. -/

theorem getD_writeAt (d : List Nat) (o b o' : Nat) :
    (writeAt d o b).getD o' 0 = if o' = o then b else d.getD o' 0 := by
  simp only [writeAt, List.getD_eq_getElem?_getD]
  by_cases h : o' = o
  · subst h
    have hlt : o' < (d ++ List.replicate (o' + 1 - d.length) 0).length := by
      simp
      omega
    rw [List.getElem?_set_self hlt]
    simp
  · rw [List.getElem?_set_ne (fun he => h he.symm)]
    rw [if_neg h]
    by_cases h2 : o' < d.length
    · rw [List.getElem?_append_left h2]
    · rw [List.getElem?_append_right (by omega)]
      rw [List.getElem?_replicate]
      have hd : d[o']? = none := List.getElem?_eq_none (by omega)
      rw [hd]
      split <;> simp

theorem get_byte_in_bounds (s : MemorySegment) (a : Nat)
    (h1 : s.get_low_address ≤ a) (h2 : a ≤ s.get_high_address) :
    s.get_byte a = .ok (s.data.getD (a - s.get_low_address) 0) := by
  unfold MemorySegment.get_byte MemorySegment.get_offset
  rw [if_neg (by omega)]
  by_cases hl : s.data.length ≤ a - s.get_low_address
  · simp only [if_pos hl, List.getD_eq_default _ _ hl]
  · simp only [if_neg hl]

theorem set_byte_nonstatic (s : MemorySegment) (a v : Nat)
    (hst : s.is_static = false) (hro : s.read_only = false)
    (h1 : s.get_low_address ≤ a) (h2 : a ≤ s.get_high_address) :
    s.set_byte a v = .ok { s with data := writeAt s.data (a - s.get_low_address) v } := by
  unfold MemorySegment.set_byte MemorySegment.get_offset
  rw [if_neg (by omega)]
  simp only [hst, hro, Bool.false_eq_true, if_false]
  by_cases hl : s.data.length ≤ a - s.get_low_address
  · simp only [if_pos hl, writeAt]
  · simp only [if_neg hl, writeAt]
    have hz : (a - s.get_low_address) + 1 - s.data.length = 0 := by omega
    rw [hz]
    simp

theorem low_set_data (s : MemorySegment) (d : List Nat) :
    ({ s with data := d } : MemorySegment).get_low_address = s.get_low_address := rfl

theorem high_set_data (s : MemorySegment) (d : List Nat) :
    ({ s with data := d } : MemorySegment).get_high_address = s.get_high_address := rfl

theorem lor_mul_pow_add (i a b : Nat) (hb : b < 2 ^ i) :
    (a * 2 ^ i) ||| b = a * 2 ^ i + b := by
  rw [Nat.mul_comm]
  exact (Nat.mul_add_lt_is_or hb a).symm

theorem recompose_word (V : Nat) (hV : V < 2 ^ 32) :
    ((((V >>> 24) % 256) <<< 24) ||| (((V >>> 16) % 256) <<< 16) |||
      (((V >>> 8) % 256) <<< 8) ||| (V % 256)) = V := by
  rw [Nat.lor_assoc, Nat.lor_assoc, Nat.shiftLeft_eq, Nat.shiftLeft_eq, Nat.shiftLeft_eq]
  rw [lor_mul_pow_add 8 _ _ (by omega)]
  rw [lor_mul_pow_add 16 _ _ (by omega)]
  rw [lor_mul_pow_add 24 _ _ (by omega)]
  simp only [Nat.shiftRight_eq_div_pow]
  omega

theorem set_word_nonstatic (s : MemorySegment) (A V : Nat)
    (hst : s.is_static = false) (hro : s.read_only = false)
    (hlo : s.get_low_address ≤ A) (hhi : A + 3 ≤ s.get_high_address)
    (hal : A % 4 = 0) :
    s.set_word A V = .ok { s with data :=
      (writeAt (writeAt (writeAt (writeAt s.data (A - s.get_low_address) ((V >>> 24) % 256))
        (A - s.get_low_address + 1) ((V >>> 16) % 256))
        (A - s.get_low_address + 2) ((V >>> 8) % 256))
        (A - s.get_low_address + 3) (V % 256)) } := by
  have hb : ∀ (d : List Nat) (a v : Nat), s.get_low_address ≤ a → a ≤ s.get_high_address →
      ({ s with data := d } : MemorySegment).set_byte a v =
        .ok { s with data := writeAt d (a - s.get_low_address) v } := by
    intro d a v h1 h2
    have h := set_byte_nonstatic { s with data := d } a v hst hro
      (by rw [low_set_data]; exact h1) (by rw [high_set_data]; exact h2)
    rw [low_set_data] at h
    exact h
  unfold MemorySegment.set_word
  rw [if_neg (by omega)]
  rw [set_byte_nonstatic s A _ hst hro hlo (by omega)]
  dsimp only
  rw [hb _ (A + 1) _ (by omega) (by omega)]
  dsimp only
  rw [hb _ (A + 2) _ (by omega) (by omega)]
  dsimp only
  rw [hb _ (A + 3) _ (by omega) (by omega)]
  have e1 : A + 1 - s.get_low_address = A - s.get_low_address + 1 := by omega
  have e2 : A + 2 - s.get_low_address = A - s.get_low_address + 2 := by omega
  have e3 : A + 3 - s.get_low_address = A - s.get_low_address + 3 := by omega
  rw [e1, e2, e3]

theorem get_byte_set_data (s : MemorySegment) (d : List Nat) (a : Nat)
    (h1 : s.get_low_address ≤ a) (h2 : a ≤ s.get_high_address) :
    ({ s with data := d } : MemorySegment).get_byte a = .ok (d.getD (a - s.get_low_address) 0) := by
  have h := get_byte_in_bounds { s with data := d } a
    (by rw [low_set_data]; exact h1) (by rw [high_set_data]; exact h2)
  rw [low_set_data] at h
  exact h

theorem get_word_set_data (s : MemorySegment) (d : List Nat) (a : Nat)
    (h1 : s.get_low_address ≤ a) (h2 : a + 3 ≤ s.get_high_address) :
    ({ s with data := d } : MemorySegment).get_word a =
      .ok ((d.getD (a - s.get_low_address) 0 <<< 24) |||
        (d.getD (a - s.get_low_address + 1) 0 <<< 16) |||
        (d.getD (a - s.get_low_address + 2) 0 <<< 8) |||
        d.getD (a - s.get_low_address + 3) 0) := by
  unfold MemorySegment.get_word
  rw [get_byte_set_data s d a h1 (by omega)]
  rw [get_byte_set_data s d (a + 1) (by omega) (by omega)]
  rw [get_byte_set_data s d (a + 2) (by omega) (by omega)]
  rw [get_byte_set_data s d (a + 3) (by omega) (by omega)]
  have e1 : a + 1 - s.get_low_address = a - s.get_low_address + 1 := by omega
  have e2 : a + 2 - s.get_low_address = a - s.get_low_address + 2 := by omega
  have e3 : a + 3 - s.get_low_address = a - s.get_low_address + 3 := by omega
  rw [e1, e2, e3]

theorem getD_zero_applySets (vm : VM) (sets : List (Nat × Nat))
    (h : vm.registers.getD 0 0 = 0) : (applySets vm sets).registers.getD 0 0 = 0 := by
  induction sets generalizing vm with
  | nil => exact h
  | cons p rest ih =>
    simp only [applySets, List.foldl_cons] at *
    apply ih
    unfold VM.set_register
    by_cases hp : p.1 = 0
    · simp only [hp, Nat.zero_eq, beq_self_eq_true, if_pos]
      exact h
    · rw [if_neg (by simpa using hp)]
      by_cases h31 : 31 < p.1
      · rw [if_pos h31]
        exact h
      · rw [if_neg h31]
        dsimp only
        rw [List.getD_eq_getElem?_getD, List.getElem?_set_ne (by omega),
          ← List.getD_eq_getElem?_getD]
        exact h

theorem get_offset_error_eq {s : MemorySegment} {a : Nat} {e : RtError}
    (h : s.get_offset a = .error e) : e = .fatal .IllegalMemoryAccess := by
  unfold MemorySegment.get_offset at h
  split at h
  · exact ((Except.error.injEq _ _).mp h).symm
  · simp at h

theorem get_offset_ok_spec {s : MemorySegment} {a offset : Nat}
    (h : s.get_offset a = .ok offset) :
    s.get_low_address ≤ a ∧ a ≤ s.get_high_address ∧ offset = a - s.get_low_address := by
  unfold MemorySegment.get_offset at h
  split at h
  · simp at h
  · next hcond =>
    have h1 : ¬a < s.get_low_address ∧ ¬s.get_high_address < a := by tauto
    exact ⟨by omega, by omega, ((Except.ok.injEq _ _).mp h).symm⟩

/- Claim theorems. -/

/-- C1: the claim asserts that `add` with `overflow_trap = true` detects *signed*
32-bit overflow, traps, and leaves the destination unchanged, so that
`add $11, $9, $10` with `$9 = 0x7FFFFFFF`, `$10 = 1` traps.  The code instead uses
`u32::overflowing_add`, which reports the *unsigned* carry: on that very input no
carry occurs, no trap is delivered, and `$11` (initially 0) is overwritten with
`0x80000000`. -/
theorem add_overflow_check_is_unsigned_carry :
    (execute_instruction addTestVM 0x012A5820).map
      (fun r => (r.2.2, r.1.registers.getD 11 0)) = .ok (none, 0x80000000) ∧
    addTestVM.registers.getD 11 0 = 0 := ⟨rfl, rfl⟩

/-- C2: the claim asserts that every RuntimeError arising while executing the lowered
task is propagated out of the step.  But `execute_instruction` captures the task's
outcome with `if let Ok(t) = self.execute_task(task)`, silently discarding any `Err`:
`add $0, $9, $10` (destination register 0) completes as `Ok` with no trap, even
though `set_register(0, _)` — evaluated here on the same state and value — is an
`IllegalRegisterAccess` error. -/
theorem execute_task_error_swallowed :
    (execute_instruction addTestVM 0x012A0020).map (fun r => r.2.2) = .ok none ∧
    addTestVM.set_register 0 0x80000000 = .error (.fatal .IllegalRegisterAccess) :=
  ⟨rfl, rfl⟩

/-- C3: the claim asserts the decoder matches funct (for opcode 0) only against
R-format entries and opcode only against I/J entries, so `0x00000008` decodes as `jr`
and opcode 0x20 as `lb`.  Both branches of `decode_base_instruction` scan the same
flat table with no format filter: `0x00000008` (opcode 0, funct 8) decodes as `addi`,
and `0x80000000` (opcode 0x20) decodes as `add`. -/
theorem decode_lookup_ignores_format :
    (VM.decode_base_instruction 0x00000008).map Instruction.name = .ok "addi" ∧
    (VM.decode_base_instruction 0x80000000).map Instruction.name = .ok "add" := ⟨rfl, rfl⟩

/-- C4: the claim asserts div/divu execute with LO = quotient and HI = remainder, and
that division by zero neither traps nor crashes.  In the code no lowering family
recognises `div`: `get_task` falls through every family and `execute_instruction` on
`div $9, $10` (word 0x012A001A, divisor `$10 = 2` nonzero) returns the fatal
`IllegalInstruction` error instead of computing anything. -/
theorem div_rejected_as_illegal_instruction :
    execute_instruction divTestVM 0x012A001A = .error (.fatal .IllegalInstruction) ∧
    divTestVM.registers.getD 10 0 = 2 := ⟨rfl, rfl⟩

/-- C5: the claim asserts `decode(encode(instr)) == instr` for every supported
instruction, naming `sltiu`, `jalr`, `addiu`.  The table gives `SLTIU` opcode
0b001001 — the same value as `ADDIU` (and as `JALR`'s funct) — and the flat,
format-blind lookup returns the first match: both `sltiu` and `jalr` decode back as
`addiu`. -/
theorem sltiu_and_jalr_decode_as_addiu :
    (VM.decode_instruction (encode_instruction
      ⟨instructions.SLTIU, .IFormat ⟨0, 0, 0⟩⟩)).map (fun d => d.base.name) = .ok "addiu" ∧
    (VM.decode_instruction (encode_instruction
      ⟨instructions.JALR, .RFormat ⟨0, 0, 0, 0, instructions.JALR.opc_func⟩⟩)).map
        (fun d => d.base.name) = .ok "addiu" := ⟨rfl, rfl⟩

/-- C6 counterexample: the claim asserts unaligned word *loads* fail with
IllegalMemoryAccess, but `get_word` performs no alignment check: reading address 63
(63 % 4 = 3) of a segment spanning [61, 100] succeeds and returns the composed
bytes. -/
theorem unaligned_word_load_not_rejected :
    63 % 4 ≠ 0 ∧ stackSeg.get_word 63 = .ok 0 := ⟨by decide, rfl⟩

/-- C6 (amended): halfword stores to addresses not divisible by 2 and word stores to
addresses not divisible by 4 fail with IllegalMemoryAccess before touching memory;
loads perform no alignment check — an unaligned halfword or word load whose byte span
is in bounds succeeds and returns the big-endian composition of the stored bytes. -/
theorem store_alignment_checked_load_unchecked (s : MemorySegment) (addr value : Nat) :
    (addr % 2 ≠ 0 → s.set_halfword addr value = .error (.fatal .IllegalMemoryAccess)) ∧
    (addr % 4 ≠ 0 → s.set_word addr value = .error (.fatal .IllegalMemoryAccess)) ∧
    (s.get_low_address ≤ addr → addr + 1 ≤ s.get_high_address →
      s.get_halfword addr =
        .ok ((s.data.getD (addr - s.get_low_address) 0 <<< 8) |||
          s.data.getD (addr + 1 - s.get_low_address) 0)) ∧
    (s.get_low_address ≤ addr → addr + 3 ≤ s.get_high_address →
      s.get_word addr =
        .ok ((s.data.getD (addr - s.get_low_address) 0 <<< 24) |||
          (s.data.getD (addr + 1 - s.get_low_address) 0 <<< 16) |||
          (s.data.getD (addr + 2 - s.get_low_address) 0 <<< 8) |||
          s.data.getD (addr + 3 - s.get_low_address) 0)) := by
  refine ⟨fun h => ?_, fun h => ?_, fun hlo hhi => ?_, fun hlo hhi => ?_⟩
  · unfold MemorySegment.set_halfword
    rw [if_pos h]
  · unfold MemorySegment.set_word
    rw [if_pos h]
  · unfold MemorySegment.get_halfword
    rw [get_byte_in_bounds s addr hlo (by omega),
        get_byte_in_bounds s (addr + 1) (by omega) (by omega)]
  · unfold MemorySegment.get_word
    rw [get_byte_in_bounds s addr hlo (by omega),
        get_byte_in_bounds s (addr + 1) (by omega) (by omega),
        get_byte_in_bounds s (addr + 2) (by omega) (by omega),
        get_byte_in_bounds s (addr + 3) (by omega) (by omega)]

/-- C6 witness: at address 61 of `loadedSeg` (bytes 0xAB 0xCD 0xEF 0x12 0x34 from
address 60) both unaligned stores fail, the unaligned halfword load returns 0xCDEF,
and the unaligned word load returns 0xCDEF1234. -/
theorem store_alignment_checked_load_unchecked_witness :
    (loadedSeg.set_halfword 61 5 = .error (.fatal .IllegalMemoryAccess)) ∧
    (loadedSeg.set_word 61 5 = .error (.fatal .IllegalMemoryAccess)) ∧
    loadedSeg.get_halfword 61 = .ok 0xCDEF ∧
    loadedSeg.get_word 61 = .ok 0xCDEF1234 :=
  ⟨(store_alignment_checked_load_unchecked loadedSeg 61 5).1 (by decide),
   (store_alignment_checked_load_unchecked loadedSeg 61 5).2.1 (by decide),
   (store_alignment_checked_load_unchecked loadedSeg 61 5).2.2.1 (by decide) (by decide),
   (store_alignment_checked_load_unchecked loadedSeg 61 5).2.2.2 (by decide) (by decide)⟩

/-- C7: for every 4-byte-aligned address A whose span [A, A+3] lies inside a writable
non-static segment and every 32-bit value V, `set_word A V` succeeds, `get_word A`
reads V back, and the bytes are stored big-endian: byte A holds `(V >> 24) & 0xFF`
and byte A+3 holds `V & 0xFF`. -/
theorem set_word_get_word_roundtrip (s : MemorySegment) (A V : Nat)
    (hst : s.is_static = false) (hro : s.read_only = false)
    (hlo : s.get_low_address ≤ A) (hhi : A + 3 ≤ s.get_high_address)
    (hal : A % 4 = 0) (hV : V < 2 ^ 32) :
    ∃ s2, s.set_word A V = .ok s2 ∧ s2.get_word A = .ok V ∧
      s2.get_byte A = .ok ((V >>> 24) &&& 0xFF) ∧
      s2.get_byte (A + 3) = .ok (V &&& 0xFF) := by
  refine ⟨_, set_word_nonstatic s A V hst hro hlo hhi hal, ?_, ?_, ?_⟩
  case _ =>
    rw [get_word_set_data s _ A hlo hhi]
    rw [getD_writeAt, if_neg (by omega), getD_writeAt, if_neg (by omega),
        getD_writeAt, if_neg (by omega), getD_writeAt, if_pos rfl]
    rw [getD_writeAt, if_neg (by omega), getD_writeAt, if_neg (by omega),
        getD_writeAt, if_pos rfl]
    rw [getD_writeAt, if_neg (by omega), getD_writeAt, if_pos rfl]
    rw [getD_writeAt, if_pos rfl]
    rw [recompose_word V hV]
  case _ =>
    rw [get_byte_set_data s _ A hlo (by omega)]
    rw [getD_writeAt, if_neg (by omega), getD_writeAt, if_neg (by omega),
        getD_writeAt, if_neg (by omega), getD_writeAt, if_pos rfl]
    have hm : (V >>> 24) &&& 0xFF = (V >>> 24) % 256 := by
      have h := Nat.and_pow_two_sub_one_eq_mod (V >>> 24) 8
      norm_num at h
      exact h
    rw [hm]
  case _ =>
    rw [get_byte_set_data s _ (A + 3) (by omega) (by omega)]
    have e3 : A + 3 - s.get_low_address = A - s.get_low_address + 3 := by omega
    rw [e3]
    rw [getD_writeAt, if_pos rfl]
    have hm : V &&& 0xFF = V % 256 := by
      have h := Nat.and_pow_two_sub_one_eq_mod V 8
      norm_num at h
      exact h
    rw [hm]

/-- C7 witness: storing 0xDEADBEEF at address 4 of `heapSeg` and reading it back. -/
theorem set_word_get_word_roundtrip_witness :
    ∃ s2, heapSeg.set_word 4 0xDEADBEEF = .ok s2 ∧ s2.get_word 4 = .ok 0xDEADBEEF ∧
      s2.get_byte 4 = .ok ((0xDEADBEEF >>> 24) &&& 0xFF) ∧
      s2.get_byte (4 + 3) = .ok (0xDEADBEEF &&& 0xFF) :=
  set_word_get_word_roundtrip heapSeg 4 0xDEADBEEF rfl rfl (by decide) (by decide)
    (by decide) (by decide)

/-- C8: the claim asserts `add_segment` rejects a new segment whose closed range
intersects an existing one, including ranges sharing exactly one boundary address.
The overlap test uses strict inequalities (`low < other.high && high > other.low`),
so `segA` = [0, 9] and `segB` = [9, 18], which share address 9, are both accepted. -/
theorem add_segment_accepts_boundary_overlap :
    ((MemoryMap.add_segment ⟨[]⟩ segA).bind fun m => MemoryMap.add_segment m segB).isSome
        = true ∧
    segA.get_low_address ≤ 9 ∧ 9 ≤ segA.get_high_address ∧
    segB.get_low_address ≤ 9 ∧ 9 ≤ segB.get_high_address :=
  ⟨rfl, by decide, by decide, by decide, by decide⟩

/-- C9: register 0 reads as 0 after any sequence of `set_register` calls (from any
state where it reads 0); `set_register 0 v` fails with IllegalRegisterAccess for every
`v` without changing state, and so does `set_register i v` for every `i > 31`. -/
theorem zero_register_protected (vm : VM) (sets : List (Nat × Nat)) (v i : Nat)
    (h0 : vm.get_register 0 = .ok 0) (hi : 31 < i) :
    (applySets vm sets).get_register 0 = .ok 0 ∧
    vm.set_register 0 v = .error (.fatal .IllegalRegisterAccess) ∧
    vm.set_register i v = .error (.fatal .IllegalRegisterAccess) := by
  have h0x : vm.registers.getD 0 0 = 0 := by
    unfold VM.get_register at h0
    rw [if_neg (by omega)] at h0
    exact (Except.ok.injEq _ _).mp h0
  refine ⟨?_, ?_, ?_⟩
  · unfold VM.get_register
    rw [if_neg (by omega), getD_zero_applySets vm sets h0x]
  · unfold VM.set_register
    simp
  · unfold VM.set_register
    rw [if_neg (by simp; omega), if_pos hi]

/-- C9 witness: from the zeroed register file, a sequence writing registers 0, 3 and
40 leaves register 0 reading 0, and the rejected calls error. -/
theorem zero_register_protected_witness :
    (applySets vmZero [(0, 5), (3, 7), (40, 9)]).get_register 0 = .ok 0 ∧
    vmZero.set_register 0 5 = .error (.fatal .IllegalRegisterAccess) ∧
    vmZero.set_register 32 5 = .error (.fatal .IllegalRegisterAccess) :=
  zero_register_protected vmZero [(0, 5), (3, 7), (40, 9)] 5 32 rfl (by decide)

/-- C10: for a static segment built by `MemorySegment::new` with size ≥ 1, the
"grow static segment" panic in `set_byte` is unreachable: every address passing the
bounds check yields an offset below the pre-allocated backing length. -/
theorem static_set_byte_no_grow_panic (name : String) (start size : Nat)
    (dir : SegmentDirection) (ro : Bool) (addr value : Nat) (hsz : 1 ≤ size) :
    (MemorySegment.new name start size true dir ro).set_byte addr value ≠
      .error .panicGrowStatic := by
  unfold MemorySegment.set_byte
  cases hoff : (MemorySegment.new name start size true dir ro).get_offset addr with
  | error e =>
    have he := get_offset_error_eq hoff
    subst he
    simp
  | ok offset =>
    obtain ⟨hl, hh, heq⟩ := get_offset_ok_spec hoff
    have hb : offset < size := by
      subst heq
      cases dir <;>
        simp only [MemorySegment.new, MemorySegment.get_low_address,
          MemorySegment.get_high_address] at hl hh ⊢ <;>
        omega
    have hdl : (MemorySegment.new name start size true dir ro).data.length = size := by
      simp [MemorySegment.new]
    dsimp only
    by_cases hro2 : (MemorySegment.new name start size true dir ro).read_only
    · rw [if_pos hro2]
      simp
    · rw [if_neg hro2, if_neg (by rw [hdl]; omega)]
      simp

/-- C10 witness: writing inside a static 4-byte segment does not hit the grow panic. -/
theorem static_set_byte_no_grow_panic_witness :
    (MemorySegment.new "s" 0 4 true .Up false).set_byte 2 7 ≠ .error .panicGrowStatic :=
  static_set_byte_no_grow_panic "s" 0 4 .Up false 2 7 (by decide)

end Juno
